import Mathlib

/-!
Shallow embedding of the retrieval-and-answer pipeline of `ui_legal_rag`
(`src/backend/legal_rag.py`, `src/backend/rag_client.py`, `src/backend/models.py`).

Modelling conventions:
* Python floats are modelled as rationals (`ℚ`); the `numpy` float32 narrowing
  in the embedding gateway is the identity on the modelled value domain.
* Fallible Python code is modelled with `Except PyErr`; a function that catches
  every exception is total in the model.
* Python dictionaries whose keys matter to the code are modelled as association
  lists with last-writer-wins insertion (`dinsert`) and front-to-back lookup
  (`dlookup`).
* Python truthiness on optional strings (`x or d`, `if not x`) is modelled by
  `pyOr` / explicit emptiness tests: both `None` and `""` are falsy.
* Wall-clock readings are not modelled; the elapsed-milliseconds value the
  pipeline would measure is passed in as an explicit `elapsedMs` argument.
  Branches of the source that return a literal `0` latency do so in the model.
* Outbound services (embedding HTTP endpoint, vector index, Azure chat
  completions, S3 presigning, the md5 hex digest) are parameters of the model,
  collected in the `Env` structure.
* Error message strings are abbreviated (no quoting punctuation), which is
  irrelevant to every statement below except for their identity.
-/

/-- A raised Python exception, reduced to its detail string (`str(e)`). -/
inductive PyErr where
  | typeError (msg : String)
  | valueError (msg : String)
  | other (msg : String)
deriving DecidableEq

/-- `str(e)`: the detail string of an exception. -/
def PyErr.msg : PyErr → String
  | .typeError m => m
  | .valueError m => m
  | .other m => m

/-- Python `x or d` for an optional string `x`: `None` and `""` are falsy. -/
def pyOr (x : Option String) (d : String) : String :=
  match x with
  | none => d
  | some s => if s = "" then d else s

/-- Python `str.strip()`: drop whitespace from both ends (an executable model
of the trimming the code applies to LLM responses). -/
def pyStrip (s : String) : String :=
  ⟨((s.data.dropWhile Char.isWhitespace).reverse.dropWhile Char.isWhitespace).reverse⟩

/-- `_cached_search`: `f if f != "None" else None` (rag_client.py:60-64,80-84). -/
def toOptFilter (s : String) : Option String :=
  if s = "None" then none else some s

/-- Dictionary lookup on an association list (front to back). -/
def dlookup {α : Type} (k : String) : List (String × α) → Option α
  | [] => none
  | (k2, v) :: rest => if k2 = k then some v else dlookup k rest

/-- Dictionary assignment `d[k] = v`: replace in place or append. -/
def dinsert {α : Type} (k : String) (v : α) : List (String × α) → List (String × α)
  | [] => [(k, v)]
  | (k2, v2) :: rest => if k2 = k then (k, v) :: rest else (k2, v2) :: dinsert k v rest

/-- The metadata bag attached to one retrieved chunk, restricted to the keys the
code reads (`s3_path`, `file_name`, `account_details`, `client_account`, `text`,
`document_type`) plus the `presigned_url` key the snippet shaping may add.
Absent keys are `none` / `[]`; values are modelled at the types the code
expects (the legacy `client_account` list fallback is outside the modelled
value domain). -/
structure Metadata where
  s3_path : Option String := none
  file_name : Option String := none
  account_details : List String := []
  client_account : Option String := none
  text : Option String := none
  document_type : Option String := none
  presigned_url : Option String := none
deriving DecidableEq

/-- One nearest-neighbour hit as returned by the vector index:
`chunk.get("metadata", {})` and `chunk.get("distance", 0.0)`. -/
structure Chunk where
  metadata : Metadata := {}
  distance : ℚ := 0
deriving DecidableEq

/-- The `query_vectors` response envelope: its `vectors` key. -/
structure VectorResponse where
  vectors : List Chunk := []
deriving DecidableEq

/-- `models.DocumentSnippet`.  The `distance` field is passed by both
construction sites (rag_client.py:197,300) and read by the UI
(utils/ui_components.py:90), though the `models.py` dataclass as given omits
it; modelled from the spec: display snippets carry the raw distance alongside
the derived relevance score. `page_number` is never set by the pipeline and is
dropped. -/
structure DocumentSnippet where
  id : String
  title : String
  content : String
  source : String
  relevance_score : ℚ
  distance : ℚ
  -- the dataclass field is named `section`, a Lean keyword
  section_ : String
  metadata : Metadata
deriving DecidableEq

/-- `models.SearchResult`. -/
structure SearchResult where
  query : String
  summary : String
  snippets : List DocumentSnippet
  client_filter : Option String := none
  total_documents : Nat := 0
  processing_time : ℚ := 0
deriving DecidableEq

/-- Modelled from the spec: `MultiClientResult` is imported from
`backend.models` (rag_client.py:6) but `models.py` as given does not define
it; the fields follow §3 "Multi-Scope Result" of the spec and the construction
site rag_client.py:329-335. -/
structure MultiClientResult where
  query : String
  client_results : List (String × String)
  total_processing_time : ℚ
  tabular_summary : String
  client_search_results : List (String × SearchResult)

/-- The raw pipeline tuple `(answer, refs, latency_ms, chunks)` returned by
`run_query_pipeline` and stored by the cache. -/
structure PipeTuple where
  answer : Option String
  refs : List (String × Metadata)
  latency : ℚ
  chunks : List Chunk
deriving DecidableEq

/-- The JSON object obtained by `json.loads` of a serialized `body` field:
only its `embeddings` key is read. -/
structure BodyJson where
  embeddings : Option (List (List ℚ)) := none
deriving DecidableEq

/-- The `body` field of the embedding-service response JSON. -/
inductive BodyField where
  /-- The response has no `body` key (e.g. the flat envelope shape):
  `.get("body")` yields `None` and `json.loads(None)` raises `TypeError`. -/
  | absent
  /-- `body` is a string that fails to parse as JSON (`json.JSONDecodeError`). -/
  | malformed
  /-- `body` is a string that parses to the given JSON object. -/
  | objVal (o : BodyJson)
deriving DecidableEq

/-- The parsed embedding-service response (`response.json()`).  The flat
envelope shape carries `embeddings` at top level; the code never reads that
key. -/
structure RespJson where
  body : BodyField := .absent
  embeddings : Option (List (List ℚ)) := none
deriving DecidableEq

/-- One metadata filter condition: `{"$in": [...]}` or `{"$eq": v}`
(legal_rag.py:97,100). -/
inductive FilterCond where
  | isIn (vals : List String)
  | isEq (v : String)
deriving DecidableEq

/-- A filter expression: a dict from metadata field name to condition. -/
abbrev FilterExpr := List (String × FilterCond)

/-- The outbound collaborators of the backend, as function parameters:
`embedSvc` is `requests.post` + `raise_for_status` + `response.json()` for one
text, `index` is `s3v.query_vectors` (query vector, filter, topK), `llm` is
`azure_client.chat.completions.create` (system message, user message), and
`presign` is `generate_presigned_url`.  `md5hex` is `hashlib.md5(..).hexdigest()`
and `saveOk` tells whether a cache write succeeds. -/
structure Env where
  embedSvc : String → Except PyErr RespJson
  index : List ℚ → Option FilterExpr → Nat → Except PyErr VectorResponse
  llm : String → String → Except PyErr String
  presign : String → Option String
  md5hex : String → String
  saveOk : Bool

/-- The per-text body of the `get_text_embedding` loop (legal_rag.py:57-86):
POST the text, check the status, read `body`, `json.loads` it, read
`embeddings`, insist on exactly one vector; any raised exception becomes the
`None` failure marker. -/
def embedOne (svc : String → Except PyErr RespJson) (text : String) : Option (List ℚ) :=
  match svc text with
  | .error _ => none
  | .ok resp =>
    match resp.body with
    | .absent => none
    | .malformed => none
    | .objVal o =>
      match o.embeddings with
      | none => none
      | some emb =>
        match emb with
        | [v] => some v
        | _ => none

/-- The two input shapes `get_text_embedding` accepts. -/
inductive EmbedInput where
  | strInput (s : String)
  | listInput (l : List String)

/-- The two return shapes of `get_text_embedding`
(`embeddings[0] if len(embeddings) == 1 else embeddings`, legal_rag.py:88). -/
inductive EmbedReturn where
  | single (v : Option (List ℚ))
  | batch (l : List (Option (List ℚ)))
deriving DecidableEq

/-- `LegalRAGBackend.get_text_embedding` (legal_rag.py:48-88): promote a bare
string to a one-element list, reject an empty list with `ValueError`, embed
each text independently, and unwrap a length-one result list. -/
def getTextEmbedding (svc : String → Except PyErr RespJson) :
    EmbedInput → Except PyErr EmbedReturn
  | .strInput s =>
    -- texts = [s]; the one-element batch is unwrapped on return
    .ok (.single (embedOne svc s))
  | .listInput texts =>
    if texts = [] then
      .error (.valueError "Input texts must be a non-empty list of strings.")
    else
      .ok (match texts.map (embedOne svc) with
        | [e] => .single e
        | es => .batch es)

/-- Python truthiness test `f and f != "All"` on an optional facet value:
a facet contributes a condition iff it is present, non-empty and not "All". -/
def concreteFacet (f : Option String) : Bool :=
  match f with
  | none => false
  | some s => s != "" && s != "All"

/-- The filter-expression dict built by `query_s3_vector_store`
(legal_rag.py:93-103): a `$in` membership condition for a concrete account
facet, then a `$eq` equality condition for a concrete document-type facet. -/
def buildFilterExpression (client_account_filter document_type_filter : Option String) :
    FilterExpr :=
  let fe : FilterExpr := []
  let fe := if concreteFacet client_account_filter then
      fe ++ [("client_account_details", FilterCond.isIn [client_account_filter.getD ""])]
    else fe
  let fe := if concreteFacet document_type_filter then
      fe ++ [("document_type", FilterCond.isEq (document_type_filter.getD ""))]
    else fe
  fe

/-- `final_filter = filter_expression if filter_expression else None`
(legal_rag.py:103). -/
def finalFilter (client_account_filter document_type_filter : Option String) :
    Option FilterExpr :=
  let fe := buildFilterExpression client_account_filter document_type_filter
  if fe = [] then none else some fe

/-- `LegalRAGBackend.query_s3_vector_store` (legal_rag.py:90-121): embed the
query text, build the filter, issue the one `query_vectors` call; any
exception inside the `try` (including the one boto3 raises when the query
embedding is the `None` failure marker) yields a `None` response.  The second
component records the `query_vectors` calls issued (filter, topK). -/
def queryS3VectorStore (env : Env) (query_text : String)
    (client_account_filter document_type_filter : Option String) (top_k : Nat) :
    Option VectorResponse × List (Option FilterExpr × Nat) :=
  let query_embedding := embedOne env.embedSvc query_text
  let ff := finalFilter client_account_filter document_type_filter
  let resp :=
    match query_embedding with
    | none => none
    | some v =>
      match env.index v ff top_k with
      | .ok r => some r
      | .error _ => none
  (resp, [(ff, top_k)])

/-- The context/citation loop of `build_prompt` (legal_rag.py:128-135),
starting at citation index `i + 1`: returns the accumulated context string and
the citation map from `[n]` markers to chunk metadata. -/
def promptContext : Nat → List Chunk → String × List (String × Metadata)
  | _, [] => ("", [])
  | i, ch :: rest =>
    let ref := "[" ++ Nat.repr (i + 1) ++ "]"
    let md := ch.metadata
    let piece := ref ++ " (" ++ md.s3_path.getD "unknown" ++ "):\n" ++
      md.text.getD "" ++ "\n\n"
    let (ctx, refs) := promptContext (i + 1) rest
    (piece ++ ctx, (ref, md) :: refs)

/-- The fixed prompt template of `build_prompt` (legal_rag.py:137-152). -/
def promptTemplate (context query : String) : String :=
  "You are a legal document analyst. Analyze the following context to provide a comprehensive answer to the question.\n\nFocus on:\n- What the documents DO say (positive findings)\n- Specific requirements, permissions, or restrictions\n- Actionable information and clear guidance\n- Direct quotes and specific clauses when relevant\n\nIf information is not explicitly stated, indicate what is missing rather than just saying \"does not mention.\"\n\nContext:\n" ++
    context ++ "\n\nQuestion: " ++ query ++ "\n\nAnswer:"

/-- `LegalRAGBackend.build_prompt` (legal_rag.py:123-153). -/
def buildPrompt (query : String) (top_chunks : VectorResponse) :
    String × List (String × Metadata) :=
  let (context, source_refs) := promptContext 0 top_chunks.vectors
  (promptTemplate context query, source_refs)

/-- The fixed system message of the synthesis call (legal_rag.py:183-188). -/
def synthSystemMsg : String :=
  "You are a legal document analyst. Provide comprehensive, actionable answers based on the context provided. Focus on what documents DO say rather than what they do not mention. Cite sources using [1], [2], etc. based on the exact chunks provided. When information is incomplete, explain what specific details are missing."

/-- `LegalRAGBackend.run_query_pipeline` (legal_rag.py:155-196).  Returns the
pipeline outcome together with the list of chunk sets handed to the LLM
synthesizer (one entry per completion request issued, carrying the full chunk
list the prompt was built from).  Retrieval yielding no response or an empty
`vectors` list short-circuits with the `(None, {}, 0, [])` sentinel tuple and
no synthesizer call; an exception from the completion call propagates. -/
def runQueryPipeline (env : Env) (query : String)
    (client_filter document_type_filter : Option String) (top_k : Nat)
    (elapsedMs : ℚ) : Except PyErr PipeTuple × List (List Chunk) :=
  let chunks := (queryS3VectorStore env query client_filter document_type_filter top_k).1
  match chunks with
  | none => (.ok ⟨none, [], 0, []⟩, [])
  | some resp =>
    if resp.vectors = [] then (.ok ⟨none, [], 0, []⟩, [])
    else
      let (prompt, refs) := buildPrompt query resp
      match env.llm synthSystemMsg prompt with
      | .error e => (.error e, [resp.vectors])
      | .ok answer => (.ok ⟨some (pyStrip answer), refs, elapsedMs, resp.vectors⟩, [resp.vectors])

/-- `RAGClient._get_cache_key` (rag_client.py:27-31): the pipe-joined
parameter string that is md5-hashed. -/
def cacheString (query client_filter document_type_filter account_type_filter
    solution_line_filter related_product_filter : String) (top_k : Nat) : String :=
  query ++ "|" ++ client_filter ++ "|" ++ document_type_filter ++ "|" ++
    account_type_filter ++ "|" ++ solution_line_filter ++ "|" ++
    related_product_filter ++ "|" ++ Nat.repr top_k

/-- `RAGClient._get_cache_key`: md5 hex digest of the joined string. -/
def getCacheKey (md5hex : String → String) (query client_filter document_type_filter
    account_type_filter solution_line_filter related_product_filter : String)
    (top_k : Nat) : String :=
  md5hex (cacheString query client_filter document_type_filter account_type_filter
    solution_line_filter related_product_filter top_k)

/-- The on-disk cache directory: one entry per key; `none` models a file that
exists but fails to unpickle. -/
abbrev Store := List (String × Option PipeTuple)

/-- `RAGClient._get_from_cache` (rag_client.py:33-42): a missing file and an
unreadable file both yield `None`. -/
def getFromCache (store : Store) (cache_key : String) : Option PipeTuple :=
  (dlookup cache_key store).bind id

/-- `RAGClient._save_to_cache` (rag_client.py:44-51): best-effort write; a
failed write (`saveOk = false`) leaves the store unchanged and raises
nothing. -/
def saveToCache (saveOk : Bool) (store : Store) (cache_key : String)
    (result : PipeTuple) : Store :=
  if saveOk then dinsert cache_key (some result) store else store

/-- The parameters `run_query_pipeline` declares (legal_rag.py:155-156). -/
def runQueryPipelineParams : List String :=
  ["query", "client_filter", "document_type_filter", "top_k"]

/-- The keyword arguments `_cached_search` passes to `run_query_pipeline`
(rag_client.py:58-65 and 78-86). -/
def cachedSearchKwargs : List String :=
  ["query", "client_filter", "document_type_filter", "account_type_filter",
   "solution_line_filter", "related_product_filter", "top_k"]

/-- Whether every keyword argument supplied by `_cached_search` is a declared
parameter of `run_query_pipeline`; if not, Python raises `TypeError` at the
call, before the pipeline body runs. -/
def kwargsAccepted : Bool :=
  cachedSearchKwargs.all (fun kw => runQueryPipelineParams.contains kw)

/-- The detail string of the `TypeError` Python raises at the mismatched
call. -/
def unexpectedKwargMsg : String :=
  "run_query_pipeline() got an unexpected keyword argument account_type_filter"

/-- The backend invocation step of `_cached_search` (rag_client.py:58-66 and
78-86): bind the supplied keyword arguments against the declared signature of
`run_query_pipeline`, mapping the `"None"` placeholders back to `None`;
binding fails with `TypeError` when an argument name is not declared. -/
def invokeBackendPipeline (env : Env) (query client_filter document_type_filter
    account_type_filter solution_line_filter related_product_filter : String)
    (top_k : Nat) (elapsedMs : ℚ) : Except PyErr PipeTuple × List (List Chunk) :=
  if kwargsAccepted then
    runQueryPipeline env query (toOptFilter client_filter)
      (toOptFilter document_type_filter) top_k elapsedMs
  else
    (.error (.typeError unexpectedKwargMsg), [])

/-- `RAGClient._cached_search` (rag_client.py:53-90).  Returns the outcome
(the pipeline tuple, or the exception that escaped), the synthesizer-call log,
and the cache store after the call. -/
def cachedSearch (env : Env) (store : Store) (use_cache : Bool)
    (query client_filter document_type_filter account_type_filter
      solution_line_filter related_product_filter : String) (top_k : Nat)
    (elapsedMs : ℚ) : (Except PyErr PipeTuple × List (List Chunk)) × Store :=
  if use_cache = false then
    (invokeBackendPipeline env query client_filter document_type_filter
      account_type_filter solution_line_filter related_product_filter top_k elapsedMs,
     store)
  else
    let cache_key := getCacheKey env.md5hex query client_filter document_type_filter
      account_type_filter solution_line_filter related_product_filter top_k
    match getFromCache store cache_key with
    | some cached_result => ((.ok cached_result, []), store)
    | none =>
      let (result, log) := invokeBackendPipeline env query client_filter
        document_type_filter account_type_filter solution_line_filter
        related_product_filter top_k elapsedMs
      match result with
      | .error e => ((.error e, log), store)
      | .ok t => ((.ok t, log), saveToCache env.saveOk store cache_key t)

/-- `file_name = s3_path.split("/")[-1] if "/" in s3_path else s3_path`
(rag_client.py:164,273). -/
def lastPathComponent (s3_path : String) : String :=
  if s3_path.contains '/' then (s3_path.splitOn "/").getLastD "" else s3_path

/-- rag_client.py:162-164,271-273: take `file_name` from the metadata, else
derive it from a non-empty `s3_path`. -/
def extractFileName (file_name : Option String) (s3_path : String) : Option String :=
  if (pyOr file_name "" = "") && s3_path != "" then some (lastPathComponent s3_path)
  else file_name

/-- rag_client.py:166-175,275-284: client account from `account_details[0]`,
falling back to the legacy `client_account` key, defaulting to "Unknown". -/
def extractClientAccount (md : Metadata) : String :=
  match md.account_details with
  | a :: _ => if a = "" then "Unknown" else a
  | [] => md.client_account.getD "Unknown"

/-- The shared per-chunk snippet construction of `search_documents` and
`search_multiple_clients` (rag_client.py:156-201 and 265-304), minus the
enumeration index and the min-relevance gate, which differ between the two
call sites. -/
def mkSnippet (presign : String → Option String) (idStr : String) (ch : Chunk) :
    DocumentSnippet :=
  let md := ch.metadata
  let s3_path := md.s3_path.getD ""
  let file_name := extractFileName md.file_name s3_path
  let client_account := extractClientAccount md
  let relevance_score := 1 - ch.distance
  let presigned_url := if s3_path != "" then presign s3_path else none
  let md2 := match presigned_url with
    | some url => { md with presigned_url := some url }
    | none => md
  { id := idStr
    title := pyOr file_name "Unknown Document"
    content := md.text.getD ""
    source := client_account
    relevance_score := relevance_score
    distance := ch.distance
    section_ := md.document_type.getD "Unknown"
    metadata := md2 }

/-- The snippet loop of `search_documents` (rag_client.py:155-201): enumerate
from `i`, skip chunks whose relevance score `1 - distance` falls below
`min_relevance`. -/
def searchSnippetsFrom (presign : String → Option String) (min_relevance : ℚ) :
    Nat → List Chunk → List DocumentSnippet
  | _, [] => []
  | i, ch :: rest =>
    if 1 - ch.distance < min_relevance then
      searchSnippetsFrom presign min_relevance (i + 1) rest
    else
      mkSnippet presign ("chunk_" ++ Nat.repr i) ch ::
        searchSnippetsFrom presign min_relevance (i + 1) rest

/-- The `SearchResult` built from a successful pipeline tuple
(rag_client.py:155-210). -/
def searchResultOfTuple (presign : String → Option String) (query : String)
    (client_filter : Option String) (min_relevance : ℚ) (t : PipeTuple) :
    SearchResult :=
  let snippets := searchSnippetsFrom presign min_relevance 0 t.chunks
  { query := query
    summary := pyOr t.answer "No answer generated"
    snippets := snippets
    client_filter := client_filter
    total_documents := snippets.length
    processing_time := t.latency / 1000 }

/-- The `SearchResult` the `except` clause of `search_documents` builds
(rag_client.py:230-237). -/
def errorSearchResult (query : String) (client_filter : Option String)
    (e : PyErr) : SearchResult :=
  { query := query
    summary := "Error: " ++ e.msg
    snippets := []
    client_filter := client_filter
    total_documents := 0
    processing_time := 0 }

/-- `RAGClient.search_documents` (rag_client.py:140-237).  Every exception the
try block raises is caught and converted to an error-summary result, so the
function is total: it never propagates an exception (the inner logging
failures are themselves swallowed and do not affect the result). -/
def searchDocuments (env : Env) (store : Store) (use_cache : Bool) (query : String)
    (client_filter document_type_filter account_type_filter solution_line_filter
      related_product_filter : Option String) (top_k : Nat) (min_relevance : ℚ)
    (elapsedMs : ℚ) : SearchResult :=
  let cache_client := pyOr client_filter "None"
  let cache_doc_type := pyOr document_type_filter "None"
  let cache_account_type := pyOr account_type_filter "None"
  let cache_solution_line := pyOr solution_line_filter "None"
  let cache_related_product := pyOr related_product_filter "None"
  match ((cachedSearch env store use_cache query cache_client cache_doc_type
      cache_account_type cache_solution_line cache_related_product top_k
      elapsedMs).1).1 with
  | .ok t => searchResultOfTuple env.presign query client_filter min_relevance t
  | .error e => errorSearchResult query client_filter e

/-- The snippet loop of `search_multiple_clients` (rag_client.py:264-304):
enumerate from `i` with per-client snippet ids and no min-relevance gate. -/
def multiSnippetsFrom (presign : String → Option String) (client : String) :
    Nat → List Chunk → List DocumentSnippet
  | _, [] => []
  | i, ch :: rest =>
    mkSnippet presign (client ++ "_chunk_" ++ Nat.repr i) ch ::
      multiSnippetsFrom presign client (i + 1) rest

/-- The per-account body of the `search_multiple_clients` loop
(rag_client.py:252-324): the answer-map entry and the result-map entry for one
account, from that account's own `_cached_search` outcome alone. -/
def multiEntry (env : Env) (query client : String)
    (outcome : Except PyErr PipeTuple) : String × SearchResult :=
  match outcome with
  | .ok t =>
    let snippets := multiSnippetsFrom env.presign client 0 t.chunks
    (pyOr t.answer "No answer found",
     { query := query
       summary := pyOr t.answer "No answer generated"
       snippets := snippets
       client_filter := some client
       total_documents := snippets.length
       processing_time := t.latency / 1000 })
  | .error e =>
    ("Error: " ++ e.msg,
     { query := query
       summary := "Error: " ++ e.msg
       snippets := []
       client_filter := some client
       total_documents := 0
       processing_time := 0 })

/-- The account loop of `search_multiple_clients` (rag_client.py:248-324):
left-to-right over the account list, skipping the sentinel "All", folding each
account's entries into the two result dicts and threading the cache store. -/
def multiLoop (env : Env) (use_cache : Bool) (query : String)
    (cache_doc_type cache_account_type cache_solution_line cache_related_product :
      String) (top_k : Nat) (elapsedMs : ℚ) :
    List String → Store → List (String × String) × List (String × SearchResult) →
    (List (String × String) × List (String × SearchResult)) × Store
  | [], store, acc => (acc, store)
  | client :: rest, store, (client_results, client_search_results) =>
    if client = "All" then
      multiLoop env use_cache query cache_doc_type cache_account_type
        cache_solution_line cache_related_product top_k elapsedMs rest store
        (client_results, client_search_results)
    else
      let pcall := cachedSearch env store use_cache query client
        cache_doc_type cache_account_type cache_solution_line cache_related_product
        top_k elapsedMs
      let entry := multiEntry env query client pcall.1.1
      multiLoop env use_cache query cache_doc_type cache_account_type
        cache_solution_line cache_related_product top_k elapsedMs rest pcall.2
        (dinsert client entry.1 client_results, dinsert client entry.2 client_search_results)

/-- The fixed instruction text of `_generate_tabular_summary`
(rag_client.py:344-356), around the query and the per-account context. -/
def tabularPrompt (query context : String) : String :=
  "Based on the following query and individual client responses, create a clean tabular summary.\n\nQuery: " ++
    query ++ "\n\nIndividual Client Responses:\n" ++ context ++
    "\n\nCreate a markdown table with three columns: \"Client\", \"Answer\" and \"Summary\". \nIn the Answer column directly answer the question, maybe Yes, No, Yes with limitation, etc.\nIn the Summary column keep summary concise but informative.\nFocus on key findings, permissions, restrictions, or requirements for each client.\n\nOnly give the markdown table (do not include ```markdown ```, only give raw markdown). No comments."

/-- The system message of the reduction call (rag_client.py:362). -/
def tabularSystemMsg : String :=
  "You are a legal analyst. Create clear, concise tabular summaries of legal findings."

/-- The context accumulation of `_generate_tabular_summary`
(rag_client.py:340-342): every entry of the per-account answer dict, in
order. -/
def tabularContext (client_results : List (String × String)) : String :=
  client_results.foldl
    (fun ctx p => ctx ++ "Client: " ++ p.1 ++ "\nAnswer: " ++ p.2 ++ "\n\n") ""

/-- `RAGClient._generate_tabular_summary` (rag_client.py:339-368): one
reduction completion over all collected per-account answers; a reduction
failure degrades to an explanatory string. -/
def generateTabularSummary (env : Env) (query : String)
    (client_results : List (String × String)) : String :=
  match env.llm tabularSystemMsg (tabularPrompt query (tabularContext client_results)) with
  | .ok response => pyStrip response
  | .error e => "Error generating summary: " ++ e.msg

/-- `RAGClient.search_multiple_clients` (rag_client.py:239-337).
`totalTime` stands for the unmodelled wall-clock span of the whole call. -/
def searchMultipleClients (env : Env) (store : Store) (use_cache : Bool)
    (query : String) (client_filters : List String)
    (document_type_filter account_type_filter solution_line_filter
      related_product_filter : Option String) (top_k : Nat) (elapsedMs : ℚ)
    (totalTime : ℚ) : MultiClientResult :=
  let cache_doc_type := pyOr document_type_filter "None"
  let cache_account_type := pyOr account_type_filter "None"
  let cache_solution_line := pyOr solution_line_filter "None"
  let cache_related_product := pyOr related_product_filter "None"
  let ((client_results, client_search_results), _store2) :=
    multiLoop env use_cache query cache_doc_type cache_account_type
      cache_solution_line cache_related_product top_k elapsedMs client_filters
      store ([], [])
  { query := query
    client_results := client_results
    total_processing_time := totalTime
    tabular_summary := generateTabularSummary env query client_results
    client_search_results := client_search_results }

/-- Modelled from the claim and spec §4.2 (refinement comparison for the
retriever-filter claim): the conjunction of one condition per supplied
concrete facet among all five facets — set-membership for the account facet,
equality for the rest — with omitted/"All" facets contributing nothing and an
empty condition set meaning no filter. -/
def claimFilterFive (account account_type document_type solution_line
    related_product : Option String) : Option FilterExpr :=
  let conds : FilterExpr :=
    (if concreteFacet account then
      [("client_account_details", FilterCond.isIn [account.getD ""])] else []) ++
    (if concreteFacet account_type then
      [("account_type", FilterCond.isEq (account_type.getD ""))] else []) ++
    (if concreteFacet document_type then
      [("document_type", FilterCond.isEq (document_type.getD ""))] else []) ++
    (if concreteFacet solution_line then
      [("solution_line", FilterCond.isEq (solution_line.getD ""))] else []) ++
    (if concreteFacet related_product then
      [("related_product", FilterCond.isEq (related_product.getD ""))] else [])
  if conds = [] then none else some conds

/-- The filter a search supplying all five facets can actually put in front of
the vector index: `run_query_pipeline` (legal_rag.py:155-160) forwards only
`client_filter` and `document_type_filter` to `query_s3_vector_store`, so the
account-type, solution-line and related-product facets never reach filter
construction. -/
def searchFilterOfFacets (account account_type document_type solution_line
    related_product : Option String) : Option FilterExpr :=
  finalFilter account document_type

/-- No occurrence of the cache-key separator `|` in a string. -/
def pipeFree (s : String) : Prop := '|' ∉ s.data

instance (s : String) : Decidable (pipeFree s) := by
  unfold pipeFree; infer_instance

/-- The numeric value of a decimal digit character. -/
def charVal (c : Char) : Nat := c.toNat - 48

/-- Decimal value of a most-significant-first digit string. -/
def decodeDigits (l : List Char) : Nat :=
  l.foldl (fun a c => 10 * a + charVal c) 0

/-! Concrete fixtures used by the witness and counterexample theorems. -/

/-- An embedding service answering with the nested serialized-`body` envelope
(shape (a) of the spec). -/
def nestedSvc : String → Except PyErr RespJson :=
  fun _ => .ok { body := .objVal { embeddings := some [[1/2]] }, embeddings := none }

/-- An embedding service answering with the flat envelope (shape (b) of the
spec): `embeddings` at top level, no `body` key. -/
def flatSvc : String → Except PyErr RespJson :=
  fun _ => .ok { body := .absent, embeddings := some [[1/2]] }

/-- Three retrieved chunks with distances 1/10, 3/5 and 9/10 (relevance
scores 9/10, 2/5 and 1/10). -/
def chunkHigh : Chunk := { metadata := {}, distance := 1/10 }

def chunkMid : Chunk := { metadata := {}, distance := 3/5 }

def chunkLow : Chunk := { metadata := {}, distance := 9/10 }

def threeChunks : List Chunk := [chunkHigh, chunkMid, chunkLow]

/-- An environment whose collaborators all succeed and whose index returns
`threeChunks`. -/
def envOk : Env :=
  { embedSvc := nestedSvc
    index := fun _ _ _ => .ok { vectors := threeChunks }
    llm := fun _ _ => .ok "ANSWER"
    presign := fun _ => none
    md5hex := id
    saveOk := true }

/-- An environment whose index finds nothing. -/
def envNone : Env :=
  { embedSvc := nestedSvc
    index := fun _ _ _ => .ok { vectors := [] }
    llm := fun _ _ => .ok "ANSWER"
    presign := fun _ => none
    md5hex := id
    saveOk := true }

/-- The per-account `_cached_search` outcome inside `search_multiple_clients`,
a function of that account (and the shared query, filters and initial cache
store) alone. -/
def multiOutcome (env : Env) (store : Store) (uc : Bool)
    (q cd ca cs cr : String) (k : Nat) (ems : ℚ) (client : String) :
    Except PyErr PipeTuple :=
  ((cachedSearch env store uc q client cd ca cs cr k ems).1).1

/-! Supporting lemmas. -/

theorem kwargsAccepted_eq_false : kwargsAccepted = false := by decide

theorem invokeBackendPipeline_eq (env : Env) (q c d a s r : String) (k : Nat)
    (ems : ℚ) :
    invokeBackendPipeline env q c d a s r k ems =
      (.error (.typeError unexpectedKwargMsg), []) := by
  unfold invokeBackendPipeline
  rw [kwargsAccepted_eq_false]
  simp

/-- `_cached_search`, fully evaluated: with caching off or on a miss the
backend invocation raises `TypeError` at argument binding; only a readable
stored entry produces a pipeline tuple. -/
theorem cachedSearch_eq (env : Env) (store : Store) (uc : Bool)
    (q c d a s r : String) (k : Nat) (ems : ℚ) :
    cachedSearch env store uc q c d a s r k ems =
      if uc = false then
        ((.error (.typeError unexpectedKwargMsg), []), store)
      else
        match getFromCache store (getCacheKey env.md5hex q c d a s r k) with
        | some t => ((.ok t, []), store)
        | none => ((.error (.typeError unexpectedKwargMsg), []), store) := by
  unfold cachedSearch
  rw [invokeBackendPipeline_eq]

theorem cachedSearch_store_eq (env : Env) (store : Store) (uc : Bool)
    (q c d a s r : String) (k : Nat) (ems : ℚ) :
    (cachedSearch env store uc q c d a s r k ems).2 = store := by
  rw [cachedSearch_eq]
  split
  · rfl
  · split <;> rfl

theorem dlookup_dinsert_self {α : Type} (k : String) (v : α) :
    ∀ m : List (String × α), dlookup k (dinsert k v m) = some v := by
  intro m
  induction m with
  | nil => simp [dinsert, dlookup]
  | cons p rest ih =>
    by_cases h : p.1 = k
    · simp [dinsert, dlookup, h]
    · simp [dinsert, dlookup, h, ih]

theorem dlookup_dinsert_ne {α : Type} (k k2 : String) (v : α) (h : k2 ≠ k) :
    ∀ m : List (String × α), dlookup k (dinsert k2 v m) = dlookup k m := by
  intro m
  induction m with
  | nil => simp [dinsert, dlookup, h]
  | cons p rest ih =>
    by_cases h2 : p.1 = k2
    · simp [dinsert, dlookup, h2, h]
    · by_cases h3 : p.1 = k <;> simp [dinsert, dlookup, h2, h3, ih, Ne.symm h]



theorem multiLoop_lookup (env : Env) (uc : Bool) (q cd ca cs cr : String)
    (k : Nat) (ems : ℚ) :
    ∀ (clients : List String) (store : Store)
      (acc : List (String × String) × List (String × SearchResult)) (c : String),
      c ≠ "All" →
      dlookup c (multiLoop env uc q cd ca cs cr k ems clients store acc).1.1 =
        (if c ∈ clients then
          some (multiEntry env q c (multiOutcome env store uc q cd ca cs cr k ems c)).1
        else dlookup c acc.1) ∧
      dlookup c (multiLoop env uc q cd ca cs cr k ems clients store acc).1.2 =
        (if c ∈ clients then
          some (multiEntry env q c (multiOutcome env store uc q cd ca cs cr k ems c)).2
        else dlookup c acc.2) := by
  intro clients
  induction clients with
  | nil =>
    intro store acc c _
    simp [multiLoop]
  | cons client rest ih =>
    intro store acc c hc
    obtain ⟨crs, csrs⟩ := acc
    by_cases hall : client = "All"
    · subst hall
      have hred : multiLoop env uc q cd ca cs cr k ems ("All" :: rest) store (crs, csrs) =
          multiLoop env uc q cd ca cs cr k ems rest store (crs, csrs) := by
        simp [multiLoop]
      rw [hred]
      rcases ih store (crs, csrs) c hc with ⟨ih1, ih2⟩
      rw [ih1, ih2]
      constructor <;> simp [List.mem_cons, hc]
    · have hred : multiLoop env uc q cd ca cs cr k ems (client :: rest) store (crs, csrs) =
          multiLoop env uc q cd ca cs cr k ems rest store
            (dinsert client
              (multiEntry env q client (multiOutcome env store uc q cd ca cs cr k ems client)).1 crs,
             dinsert client
              (multiEntry env q client (multiOutcome env store uc q cd ca cs cr k ems client)).2 csrs) := by
        simp only [multiLoop, if_neg hall, multiOutcome]
        rw [cachedSearch_store_eq]
      rw [hred]
      rcases ih store
          (dinsert client
            (multiEntry env q client (multiOutcome env store uc q cd ca cs cr k ems client)).1 crs,
           dinsert client
            (multiEntry env q client (multiOutcome env store uc q cd ca cs cr k ems client)).2 csrs)
          c hc with ⟨ih1, ih2⟩
      rw [ih1, ih2]
      by_cases hmem : c ∈ rest
      · constructor <;> simp [List.mem_cons, hmem]
      · by_cases hcc : c = client
        · subst hcc
          constructor <;>
            simp [List.mem_cons, hmem, dlookup_dinsert_self]
        · have hmm : ¬ c ∈ client :: rest := by
            intro hx
            rcases List.mem_cons.mp hx with hx | hx
            · exact hcc hx
            · exact hmem hx
          constructor <;>
            simp [List.mem_cons, hmem, hcc, hmm,
              dlookup_dinsert_ne c client _ (fun hx => hcc hx.symm)]

theorem searchSnippetsFrom_eq (presign : String → Option String) (m : ℚ) :
    ∀ (i : Nat) (chunks : List Chunk),
      searchSnippetsFrom presign m i chunks =
        ((List.enumFrom i chunks).filter (fun p => m ≤ 1 - p.2.distance)).map
          (fun p => mkSnippet presign ("chunk_" ++ Nat.repr p.1) p.2) := by
  intro i chunks
  induction chunks generalizing i with
  | nil => simp [searchSnippetsFrom, List.enumFrom]
  | cons ch rest ih =>
    by_cases h : 1 - ch.distance < m
    · have hn : ¬ m ≤ 1 - ch.distance := not_le.mpr h
      simp [searchSnippetsFrom, List.enumFrom, List.filter_cons, h, hn, ih]
    · have hy : m ≤ 1 - ch.distance := not_lt.mp h
      simp [searchSnippetsFrom, List.enumFrom, List.filter_cons, h, hy, ih]

theorem searchDocuments_eq (env : Env) (store : Store) (uc : Bool) (q : String)
    (cf df atf slf rpf : Option String) (k : Nat) (m ems : ℚ) :
    searchDocuments env store uc q cf df atf slf rpf k m ems =
      match ((cachedSearch env store uc q (pyOr cf "None") (pyOr df "None")
          (pyOr atf "None") (pyOr slf "None") (pyOr rpf "None") k ems).1).1 with
      | .ok t => searchResultOfTuple env.presign q cf m t
      | .error e => errorSearchResult q cf e := rfl

theorem cachedSearch_result_error (env : Env) (store : Store) (uc : Bool)
    (q c d a s r : String) (k : Nat) (ems : ℚ)
    (h : uc = false ∨ getFromCache store (getCacheKey env.md5hex q c d a s r k) = none) :
    ((cachedSearch env store uc q c d a s r k ems).1).1 =
      .error (.typeError unexpectedKwargMsg) := by
  rw [cachedSearch_eq]
  by_cases huc : uc = false
  · simp [huc]
  · rcases h with h | h
    · exact absurd h huc
    · simp [huc, h]

theorem cachedSearch_result_hit (env : Env) (store : Store)
    (q c d a s r : String) (k : Nat) (ems : ℚ) (t : PipeTuple)
    (h : getFromCache store (getCacheKey env.md5hex q c d a s r k) = some t) :
    (cachedSearch env store true q c d a s r k ems).1 = (.ok t, []) := by
  rw [cachedSearch_eq]
  simp [h]

theorem searchMultipleClients_fields (env : Env) (store : Store) (uc : Bool)
    (q : String) (clients : List String) (df atf slf rpf : Option String)
    (k : Nat) (ems tt : ℚ) :
    (searchMultipleClients env store uc q clients df atf slf rpf k ems tt).client_results =
      (multiLoop env uc q (pyOr df "None") (pyOr atf "None") (pyOr slf "None")
        (pyOr rpf "None") k ems clients store ([], [])).1.1 ∧
    (searchMultipleClients env store uc q clients df atf slf rpf k ems tt).client_search_results =
      (multiLoop env uc q (pyOr df "None") (pyOr atf "None") (pyOr slf "None")
        (pyOr rpf "None") k ems clients store ([], [])).1.2 ∧
    (searchMultipleClients env store uc q clients df atf slf rpf k ems tt).tabular_summary =
      generateTabularSummary env q
        (multiLoop env uc q (pyOr df "None") (pyOr atf "None") (pyOr slf "None")
          (pyOr rpf "None") k ems clients store ([], [])).1.1 := by
  exact ⟨rfl, rfl, rfl⟩

/-! Claim theorems. -/

/-- C3: Empty-retrieval short-circuit.  Whenever the vector retrieval step
yields zero chunks — no response at all, or a response with an empty `vectors`
list — `run_query_pipeline` returns the no-answer sentinel tuple
`(None, empty citation map, 0 elapsed milliseconds, empty chunk list)` without
issuing any synthesizer call (the synthesizer-call log is empty), and the
`SearchResult` built downstream from that tuple has `total_documents = 0`
(with the "No answer generated" summary and no snippets). -/
theorem empty_retrieval_short_circuit (env : Env) (q : String)
    (cf df : Option String) (k : Nat) (ems : ℚ)
    (h : (queryS3VectorStore env q cf df k).1 = none ∨
      ∃ r, (queryS3VectorStore env q cf df k).1 = some r ∧ r.vectors = []) :
    runQueryPipeline env q cf df k ems = (.ok ⟨none, [], 0, []⟩, []) ∧
    ∀ (presign : String → Option String) (q2 : String) (cf2 : Option String) (m : ℚ),
      searchResultOfTuple presign q2 cf2 m ⟨none, [], 0, []⟩ =
        { query := q2, summary := "No answer generated", snippets := [],
          client_filter := cf2, total_documents := 0, processing_time := 0 } := by
  constructor
  · unfold runQueryPipeline
    rcases h with h | ⟨r, hr, hv⟩
    · rw [h]
    · rw [hr]
      simp [hv]
  · intro presign q2 cf2 m
    simp [searchResultOfTuple, searchSnippetsFrom, pyOr]

/-- Witness for C3 at a concrete environment whose index returns no vectors. -/
theorem empty_retrieval_short_circuit_witness :
    runQueryPipeline envNone "q" none none 5 7 = (.ok ⟨none, [], 0, []⟩, []) ∧
    (searchResultOfTuple envNone.presign "q" none 0 ⟨none, [], 0, []⟩).total_documents = 0 := by
  have h := empty_retrieval_short_circuit envNone "q" none none 5 7
    (Or.inr ⟨{ vectors := [] }, rfl, rfl⟩)
  refine ⟨h.1, ?_⟩
  rw [h.2 envNone.presign "q" none 0]

/-- C5: Single-scope pipeline error boundary.  `search_documents` is total in
the model (it never propagates an exception); whenever the inner cached search
raises, the returned `SearchResult` is exactly the error-flavoured one: its
summary is the exception detail prefixed with "Error: ", its snippet list is
empty and `total_documents = 0`. -/
theorem search_error_boundary (env : Env) (store : Store) (uc : Bool)
    (q : String) (cf df atf slf rpf : Option String) (k : Nat) (m ems : ℚ)
    (e : PyErr)
    (h : ((cachedSearch env store uc q (pyOr cf "None") (pyOr df "None")
        (pyOr atf "None") (pyOr slf "None") (pyOr rpf "None") k ems).1).1 = .error e) :
    searchDocuments env store uc q cf df atf slf rpf k m ems =
      errorSearchResult q cf e ∧
    (errorSearchResult q cf e).summary = "Error: " ++ e.msg ∧
    (errorSearchResult q cf e).snippets = [] ∧
    (errorSearchResult q cf e).total_documents = 0 := by
  rw [searchDocuments_eq, h]
  exact ⟨rfl, rfl, rfl, rfl⟩

/-- Witness for C5: with caching disabled the backend invocation raises and
the search returns the error-flavoured result. -/
theorem search_error_boundary_witness :
    searchDocuments envOk [] false "q" none none none none none 5 0 0 =
      errorSearchResult "q" none (.typeError unexpectedKwargMsg) ∧
    (errorSearchResult "q" none (.typeError unexpectedKwargMsg)).total_documents = 0 := by
  have h := search_error_boundary envOk [] false "q" none none none none none 5 0 0
    (.typeError unexpectedKwargMsg) rfl
  exact ⟨h.1, h.2.2.2⟩

/-- C10 (implicit): `_cached_search` passes the keyword arguments
`account_type_filter`, `solution_line_filter` and `related_product_filter`,
which `run_query_pipeline` does not declare, so every call that reaches the
backend — caching disabled, or a miss for the derived key — raises `TypeError`
at argument binding; `search_documents` therefore returns the error-flavoured
result (summary "Error: " prefixed, zero documents), and in
`search_multiple_clients` every account whose search reaches the backend gets
the error-flavoured answer entry.  Only a pre-existing readable cache hit
(`cachedSearch_result_hit`) returns a pipeline tuple. -/
theorem backend_kwargs_type_error (env : Env) (store : Store) (uc : Bool)
    (q : String) (cf df atf slf rpf : Option String) (k : Nat) (m ems : ℚ)
    (h : uc = false ∨
      getFromCache store (getCacheKey env.md5hex q (pyOr cf "None") (pyOr df "None")
        (pyOr atf "None") (pyOr slf "None") (pyOr rpf "None") k) = none) :
    searchDocuments env store uc q cf df atf slf rpf k m ems =
      errorSearchResult q cf (.typeError unexpectedKwargMsg) ∧
    (errorSearchResult q cf (.typeError unexpectedKwargMsg)).summary =
      "Error: " ++ unexpectedKwargMsg ∧
    (errorSearchResult q cf (.typeError unexpectedKwargMsg)).total_documents = 0 ∧
    ∀ (clients : List String) (tt : ℚ) (c : String), c ∈ clients → c ≠ "All" →
      (uc = false ∨
        getFromCache store (getCacheKey env.md5hex q c (pyOr df "None")
          (pyOr atf "None") (pyOr slf "None") (pyOr rpf "None") k) = none) →
      dlookup c (searchMultipleClients env store uc q clients df atf slf rpf
          k ems tt).client_results =
        some ("Error: " ++ unexpectedKwargMsg) := by
  refine ⟨?_, rfl, rfl, ?_⟩
  · rw [searchDocuments_eq, cachedSearch_result_error env store uc q _ _ _ _ _ k ems h]
  · intro clients tt c hmem hall hmiss
    have hf := (searchMultipleClients_fields env store uc q clients df atf slf rpf
      k ems tt).1
    rw [hf]
    have hl := (multiLoop_lookup env uc q (pyOr df "None") (pyOr atf "None")
      (pyOr slf "None") (pyOr rpf "None") k ems clients store ([], []) c hall).1
    rw [hl]
    have hout : multiOutcome env store uc q (pyOr df "None") (pyOr atf "None")
        (pyOr slf "None") (pyOr rpf "None") k ems c =
        .error (.typeError unexpectedKwargMsg) := by
      unfold multiOutcome
      exact cachedSearch_result_error env store uc q _ _ _ _ _ k ems hmiss
    rw [if_pos hmem, hout]
    rfl

/-- Witness for C10: enabled caching with an empty store (a miss) yields the
error result, both single-scope and per account. -/
theorem backend_kwargs_type_error_witness :
    searchDocuments envOk [] true "q" none none none none none 5 0 0 =
      errorSearchResult "q" none (.typeError unexpectedKwargMsg) ∧
    dlookup "Acme" (searchMultipleClients envOk [] true "q" ["Acme"] none none
        none none 5 0 0).client_results =
      some ("Error: " ++ unexpectedKwargMsg) := by
  have h := backend_kwargs_type_error envOk [] true "q" none none none none none
    5 0 0 (Or.inr rfl)
  exact ⟨h.1, h.2.2.2 ["Acme"] 0 "Acme" (List.mem_singleton.mpr rfl)
    (by decide) (Or.inr rfl)⟩

/-- C4: Min-relevance filtering is post-synthesis and display-only.  Part one:
whenever retrieval produces a non-empty chunk set, the synthesizer-call log of
`run_query_pipeline` is exactly one call carrying the full unfiltered chunk
list.  Part two: the `SearchResult` later shaped from a pipeline tuple
displays exactly the chunks whose relevance score `1 - distance` is at least
`min_relevance` (keeping their enumeration ids), and `total_documents` is the
count of those surviving snippets. -/
theorem min_relevance_post_synthesis :
    (∀ (env : Env) (q : String) (cf df : Option String) (k : Nat) (ems : ℚ)
      (r : VectorResponse),
      (queryS3VectorStore env q cf df k).1 = some r → r.vectors ≠ [] →
      (runQueryPipeline env q cf df k ems).2 = [r.vectors]) ∧
    (∀ (presign : String → Option String) (q : String) (cf : Option String)
      (m : ℚ) (t : PipeTuple),
      (searchResultOfTuple presign q cf m t).snippets =
        ((List.enumFrom 0 t.chunks).filter (fun p => m ≤ 1 - p.2.distance)).map
          (fun p => mkSnippet presign ("chunk_" ++ Nat.repr p.1) p.2) ∧
      (searchResultOfTuple presign q cf m t).total_documents =
        (((List.enumFrom 0 t.chunks).filter (fun p => m ≤ 1 - p.2.distance)).map
          (fun p => mkSnippet presign ("chunk_" ++ Nat.repr p.1) p.2)).length) := by
  constructor
  · intro env q cf df k ems r h hv
    unfold runQueryPipeline
    rw [h]
    simp only [hv, if_neg]
    cases env.llm synthSystemMsg (buildPrompt q r).1 <;> simp
  · intro presign q cf m t
    constructor <;> simp [searchResultOfTuple, searchSnippetsFrom_eq]

/-- Witness for C4: three chunks with relevance scores 9/10, 2/5 and 1/10 and
`min_relevance = 1/2`: the synthesizer sees all three, the result displays
exactly one. -/
theorem min_relevance_post_synthesis_witness :
    (runQueryPipeline envOk "q" none none 5 0).2 = [threeChunks] ∧
    (searchResultOfTuple envOk.presign "q" none (1/2)
      ⟨some "ANSWER", [], 0, threeChunks⟩).total_documents = 1 := by
  constructor
  · exact min_relevance_post_synthesis.1 envOk "q" none none 5 0
      { vectors := threeChunks } rfl (by simp [threeChunks])
  · rw [(min_relevance_post_synthesis.2 envOk.presign "q" none (1/2)
      ⟨some "ANSWER", [], 0, threeChunks⟩).2]
    norm_num [threeChunks, chunkHigh, chunkMid, chunkLow, List.enumFrom, List.filter]

theorem multiLoop_lookup_all (env : Env) (uc : Bool) (q cd ca cs cr : String)
    (k : Nat) (ems : ℚ) :
    ∀ (clients : List String) (store : Store)
      (acc : List (String × String) × List (String × SearchResult)),
      dlookup "All" (multiLoop env uc q cd ca cs cr k ems clients store acc).1.1 =
        dlookup "All" acc.1 ∧
      dlookup "All" (multiLoop env uc q cd ca cs cr k ems clients store acc).1.2 =
        dlookup "All" acc.2 := by
  intro clients
  induction clients with
  | nil => intro store acc; exact ⟨rfl, rfl⟩
  | cons client rest ih =>
    intro store acc
    obtain ⟨crs, csrs⟩ := acc
    by_cases hall : client = "All"
    · subst hall
      have hred : multiLoop env uc q cd ca cs cr k ems ("All" :: rest) store (crs, csrs) =
          multiLoop env uc q cd ca cs cr k ems rest store (crs, csrs) := by
        simp [multiLoop]
      rw [hred]
      exact ih store (crs, csrs)
    · have hred : multiLoop env uc q cd ca cs cr k ems (client :: rest) store (crs, csrs) =
          multiLoop env uc q cd ca cs cr k ems rest store
            (dinsert client
              (multiEntry env q client (multiOutcome env store uc q cd ca cs cr k ems client)).1 crs,
             dinsert client
              (multiEntry env q client (multiOutcome env store uc q cd ca cs cr k ems client)).2 csrs) := by
        simp only [multiLoop, if_neg hall, multiOutcome]
        rw [cachedSearch_store_eq]
      rw [hred]
      rcases ih store
          (dinsert client
            (multiEntry env q client (multiOutcome env store uc q cd ca cs cr k ems client)).1 crs,
           dinsert client
            (multiEntry env q client (multiOutcome env store uc q cd ca cs cr k ems client)).2 csrs)
        with ⟨ih1, ih2⟩
      rw [ih1, ih2]
      constructor <;> rw [dlookup_dinsert_ne _ _ _ hall]

/-- C6: Multi-scope account invariant and failure isolation.  Every account in
the input list other than the sentinel "All" appears as a key of both the
per-account answer map and the per-account `SearchResult` map; its two entries
are a function of that account's own cached-search outcome alone (so one
account's exception cannot disturb another's entry), and when that outcome is
an exception the entries are the error-flavoured ones.  "All" is skipped and
never keyed, and the tabular-summary reduction runs over the full collected
answer map, error entries included. -/
theorem multi_scope_invariants (env : Env) (store : Store) (uc : Bool)
    (q : String) (clients : List String) (df atf slf rpf : Option String)
    (k : Nat) (ems tt : ℚ) :
    (∀ c ∈ clients, c ≠ "All" →
      dlookup c (searchMultipleClients env store uc q clients df atf slf rpf
          k ems tt).client_results =
        some (multiEntry env q c (multiOutcome env store uc q (pyOr df "None")
          (pyOr atf "None") (pyOr slf "None") (pyOr rpf "None") k ems c)).1 ∧
      dlookup c (searchMultipleClients env store uc q clients df atf slf rpf
          k ems tt).client_search_results =
        some (multiEntry env q c (multiOutcome env store uc q (pyOr df "None")
          (pyOr atf "None") (pyOr slf "None") (pyOr rpf "None") k ems c)).2 ∧
      (∀ e, multiOutcome env store uc q (pyOr df "None") (pyOr atf "None")
          (pyOr slf "None") (pyOr rpf "None") k ems c = .error e →
        (multiEntry env q c (multiOutcome env store uc q (pyOr df "None")
          (pyOr atf "None") (pyOr slf "None") (pyOr rpf "None") k ems c)).1 =
            "Error: " ++ e.msg ∧
        (multiEntry env q c (multiOutcome env store uc q (pyOr df "None")
          (pyOr atf "None") (pyOr slf "None") (pyOr rpf "None") k ems c)).2 =
          { query := q, summary := "Error: " ++ e.msg, snippets := [],
            client_filter := some c, total_documents := 0, processing_time := 0 })) ∧
    dlookup "All" (searchMultipleClients env store uc q clients df atf slf rpf
      k ems tt).client_results = none ∧
    dlookup "All" (searchMultipleClients env store uc q clients df atf slf rpf
      k ems tt).client_search_results = none ∧
    (searchMultipleClients env store uc q clients df atf slf rpf k ems tt).tabular_summary =
      generateTabularSummary env q
        (searchMultipleClients env store uc q clients df atf slf rpf
          k ems tt).client_results := by
  obtain ⟨hf1, hf2, hf3⟩ :=
    searchMultipleClients_fields env store uc q clients df atf slf rpf k ems tt
  refine ⟨?_, ?_, ?_, ?_⟩
  · intro c hmem hall
    obtain ⟨hl1, hl2⟩ := multiLoop_lookup env uc q (pyOr df "None") (pyOr atf "None")
      (pyOr slf "None") (pyOr rpf "None") k ems clients store ([], []) c hall
    refine ⟨?_, ?_, ?_⟩
    · rw [hf1, hl1, if_pos hmem]
    · rw [hf2, hl2, if_pos hmem]
    · intro e he
      rw [he]
      exact ⟨rfl, rfl⟩
  · rw [hf1]
    exact (multiLoop_lookup_all env uc q (pyOr df "None") (pyOr atf "None")
      (pyOr slf "None") (pyOr rpf "None") k ems clients store ([], [])).1
  · rw [hf2]
    exact (multiLoop_lookup_all env uc q (pyOr df "None") (pyOr atf "None")
      (pyOr slf "None") (pyOr rpf "None") k ems clients store ([], [])).2
  · rw [hf3, hf1]

/-- Witness for C6: accounts ["All", "Acme", "Globex"] against an empty cache:
both named accounts are keyed with the error-flavoured entry (their searches
raise the keyword-argument `TypeError`), "All" is never keyed, and the
reduction runs over the collected map. -/
theorem multi_scope_invariants_witness :
    dlookup "Acme" (searchMultipleClients envOk [] true "q" ["All", "Acme", "Globex"]
        none none none none 5 0 0).client_results =
      some ("Error: " ++ unexpectedKwargMsg) ∧
    dlookup "Globex" (searchMultipleClients envOk [] true "q" ["All", "Acme", "Globex"]
        none none none none 5 0 0).client_results =
      some ("Error: " ++ unexpectedKwargMsg) ∧
    dlookup "All" (searchMultipleClients envOk [] true "q" ["All", "Acme", "Globex"]
        none none none none 5 0 0).client_results = none ∧
    (searchMultipleClients envOk [] true "q" ["All", "Acme", "Globex"]
        none none none none 5 0 0).tabular_summary =
      generateTabularSummary envOk "q"
        (searchMultipleClients envOk [] true "q" ["All", "Acme", "Globex"]
          none none none none 5 0 0).client_results := by
  have h := multi_scope_invariants envOk [] true "q" ["All", "Acme", "Globex"]
    none none none none 5 0 0
  have hAcme := h.1 "Acme" (by simp) (by decide)
  have hGlobex := h.1 "Globex" (by simp) (by decide)
  refine ⟨?_, ?_, h.2.1, h.2.2.2⟩
  · rw [hAcme.1, (hAcme.2.2 (.typeError unexpectedKwargMsg) rfl).1]
    rfl
  · rw [hGlobex.1, (hGlobex.2.2 (.typeError unexpectedKwargMsg) rfl).1]
    rfl

/-- C1 (code bug, evaluation at the failing input): with caching enabled and
no stored entry for the derived key, `_cached_search` does not compute,
persist and return a fresh pipeline tuple — the backend invocation raises
`TypeError` at keyword binding (the pipeline body never runs, the
synthesizer-call log is empty, the store is left untouched) and the error
propagates.  The second conjunct shows the pipeline itself, invoked with its
declared parameters, would have produced a perfectly good tuple for the same
request, so the miss path loses it to the keyword mismatch alone. -/
theorem cache_roundtrip_miss_failing_input :
    cachedSearch envOk [] true "q" "None" "None" "None" "None" "None" 5 0 =
      ((.error (.typeError unexpectedKwargMsg), []), []) ∧
    runQueryPipeline envOk "q" none none 5 0 =
      (.ok ⟨some "ANSWER", [("[1]", {}), ("[2]", {}), ("[3]", {})], 0, threeChunks⟩,
        [threeChunks]) := by
  refine ⟨rfl, ?_⟩
  rfl

/-- C8 (code bug, evaluation at the failing input): the embedding gateway
reads only the nested `body` envelope.  On the flat envelope — `embeddings`
at top level, no `body` key — `json.loads(None)` raises and the gateway
records the failure marker instead of the vector, while the nested envelope
carrying the same vector succeeds. -/
theorem embedding_flat_envelope_failing_input :
    embedOne flatSvc "q" = none ∧
    getTextEmbedding flatSvc (.listInput ["q"]) = .ok (.single none) ∧
    embedOne nestedSvc "q" = some [1/2] := by
  exact ⟨rfl, rfl, rfl⟩

/-- C9 counterexample: for the singleton input list the gateway returns the
single entry unwrapped (`embeddings[0]`), not a one-entry list. -/
theorem embedding_singleton_counterexample :
    getTextEmbedding nestedSvc (.listInput ["a"]) = .ok (.single (some [1/2])) ∧
    EmbedReturn.single (embedOne nestedSvc "a") ≠
      EmbedReturn.batch [embedOne nestedSvc "a"] := by
  exact ⟨rfl, by decide⟩

/-- C9 (amended): for every input list of at least two strings the gateway
returns one entry per input string — position `i` holding the vector or the
failure marker obtained for input `i` alone, so one failure never blocks the
rest — while a singleton list (like a bare string) returns its single
vector-or-marker unwrapped, and the empty list raises `ValueError`. -/
theorem embedding_batch_shape (svc : String → Except PyErr RespJson) :
    (∀ texts : List String, 2 ≤ texts.length →
      getTextEmbedding svc (.listInput texts) = .ok (.batch (texts.map (embedOne svc))) ∧
      (texts.map (embedOne svc)).length = texts.length) ∧
    (∀ t : String, getTextEmbedding svc (.listInput [t]) = .ok (.single (embedOne svc t))) ∧
    getTextEmbedding svc (.listInput []) =
      .error (.valueError "Input texts must be a non-empty list of strings.") := by
  refine ⟨?_, ?_, rfl⟩
  · intro texts hlen
    match texts with
    | t1 :: t2 :: ts =>
      constructor
      · rfl
      · simp
  · intro t
    rfl

/-- Witness for C9: a two-string batch returns a two-entry list, one entry per
input. -/
theorem embedding_batch_shape_witness :
    getTextEmbedding nestedSvc (.listInput ["a", "b"]) =
      .ok (.batch [some [1/2], some [1/2]]) := by
  have h := (embedding_batch_shape nestedSvc).1 ["a", "b"] (by decide)
  rw [h.1]
  rfl

/-- C7 counterexample: a search whose only concrete facet is the solution
line.  The claim requires the filter to carry one condition for it, but the
pipeline forwards only the account and document-type facets to the retriever,
so the filter actually constructed is absent (whole-corpus search). -/
theorem retriever_filter_five_facets_counterexample :
    searchFilterOfFacets none none none (some "Pharmacy") none = none ∧
    claimFilterFive none none none (some "Pharmacy") none =
      some [("solution_line", FilterCond.isEq "Pharmacy")] ∧
    claimFilterFive none none none (some "Pharmacy") none ≠
      searchFilterOfFacets none none none (some "Pharmacy") none := by
  exact ⟨rfl, rfl, by decide⟩

theorem concreteFacet_some (c : Option String) (h : concreteFacet c = true) :
    ∃ v, c = some v ∧ c.getD "" = v := by
  cases c with
  | none => cases h
  | some s => exact ⟨s, rfl, rfl⟩

theorem finalFilter_eq (c d : Option String) :
    finalFilter c d =
      if concreteFacet c then
        if concreteFacet d then
          some [("client_account_details", FilterCond.isIn [c.getD ""]),
                ("document_type", FilterCond.isEq (d.getD ""))]
        else some [("client_account_details", FilterCond.isIn [c.getD ""])]
      else
        if concreteFacet d then some [("document_type", FilterCond.isEq (d.getD ""))]
        else none := by
  by_cases hc : concreteFacet c <;> by_cases hd : concreteFacet d <;>
    simp [finalFilter, buildFilterExpression, hc, hd]

/-- C7 (amended): the retriever's metadata filter is the conjunction of one
condition per supplied concrete facet among the two facets it supports — the
account facet as a `$in` set-membership condition on `client_account_details`
and the document-type facet as a `$eq` equality condition on `document_type`;
omitted, empty or "All" facets contribute no condition, no condition at all
means the filter is absent, the filter mentions no other field, and exactly
one top-K `query_vectors` call is issued per retrieval. -/
theorem retriever_filter_two_facets (env : Env) (q : String)
    (c d : Option String) (k : Nat) :
    (queryS3VectorStore env q c d k).2 = [(finalFilter c d, k)] ∧
    (finalFilter c d = none ↔ concreteFacet c = false ∧ concreteFacet d = false) ∧
    (∀ f : FilterExpr, finalFilter c d = some f →
      (concreteFacet c = true →
        ∃ v, c = some v ∧ ("client_account_details", FilterCond.isIn [v]) ∈ f) ∧
      (concreteFacet c = false → ∀ p ∈ f, p.1 ≠ "client_account_details") ∧
      (concreteFacet d = true →
        ∃ v, d = some v ∧ ("document_type", FilterCond.isEq v) ∈ f) ∧
      (concreteFacet d = false → ∀ p ∈ f, p.1 ≠ "document_type") ∧
      (∀ p ∈ f, p.1 = "client_account_details" ∨ p.1 = "document_type")) := by
  refine ⟨rfl, ?_, ?_⟩
  · rw [finalFilter_eq]
    by_cases hc : concreteFacet c <;> by_cases hd : concreteFacet d <;>
      simp [hc, hd]
  · intro f hf
    rw [finalFilter_eq] at hf
    by_cases hc : concreteFacet c <;> by_cases hd : concreteFacet d <;>
      simp only [hc, hd, if_true, if_false, Bool.false_eq_true] at hf
    · obtain ⟨cv, hcv, hcg⟩ := concreteFacet_some c hc
      obtain ⟨dv, hdv, hdg⟩ := concreteFacet_some d hd
      obtain rfl := Option.some_inj.mp hf
      refine ⟨fun _ => ⟨cv, hcv, ?_⟩, fun hcf => by simp [hc] at hcf,
        fun _ => ⟨dv, hdv, ?_⟩, fun hdf => by simp [hd] at hdf, ?_⟩
      · rw [hcg]; exact List.mem_cons_self _ _
      · rw [hdg]; exact List.mem_cons_of_mem _ (List.mem_cons_self _ _)
      · intro p hp
        rcases List.mem_cons.mp hp with rfl | hp
        · exact Or.inl rfl
        · rcases List.mem_cons.mp hp with rfl | hp
          · exact Or.inr rfl
          · cases hp
    · obtain ⟨cv, hcv, hcg⟩ := concreteFacet_some c hc
      obtain rfl := Option.some_inj.mp hf
      refine ⟨fun _ => ⟨cv, hcv, ?_⟩, fun hcf => by simp [hc] at hcf,
        fun hdt => by simp [hdt] at hd, fun _ => ?_, ?_⟩
      · rw [hcg]; exact List.mem_cons_self _ _
      · intro p hp
        rcases List.mem_cons.mp hp with rfl | hp
        · show ("client_account_details" : String) ≠ "document_type"
          decide
        · cases hp
      · intro p hp
        rcases List.mem_cons.mp hp with rfl | hp
        · exact Or.inl rfl
        · cases hp
    · obtain ⟨dv, hdv, hdg⟩ := concreteFacet_some d hd
      obtain rfl := Option.some_inj.mp hf
      refine ⟨fun hct => by simp [hct] at hc, fun _ => ?_,
        fun _ => ⟨dv, hdv, ?_⟩, fun hdf => by simp [hd] at hdf, ?_⟩
      · intro p hp
        rcases List.mem_cons.mp hp with rfl | hp
        · show ("document_type" : String) ≠ "client_account_details"
          decide
        · cases hp
      · rw [hdg]; exact List.mem_cons_self _ _
      · intro p hp
        rcases List.mem_cons.mp hp with rfl | hp
        · exact Or.inr rfl
        · cases hp
    · cases hf

/-- Witness for C7 (amended) at concrete facets account "Acme" and document
type "MSA". -/
theorem retriever_filter_two_facets_witness :
    (queryS3VectorStore envOk "q" (some "Acme") (some "MSA") 5).2 =
      [(finalFilter (some "Acme") (some "MSA"), 5)] ∧
    (∃ v, (some "Acme" : Option String) = some v ∧
      ("client_account_details", FilterCond.isIn [v]) ∈
        ([("client_account_details", FilterCond.isIn ["Acme"]),
          ("document_type", FilterCond.isEq "MSA")] : FilterExpr)) := by
  have h := retriever_filter_two_facets envOk "q" (some "Acme") (some "MSA") 5
  exact ⟨h.1, ((h.2.2 _ rfl).1 rfl)⟩

theorem charVal_digitChar : ∀ d : Nat, d < 10 → charVal (Nat.digitChar d) = d := by
  decide

theorem digitChar_ne_pipe : ∀ d : Nat, d < 10 → Nat.digitChar d ≠ '|' := by
  decide

theorem decodeDigits_append (l : List Char) (ch : Char) :
    decodeDigits (l ++ [ch]) = 10 * decodeDigits l + charVal ch := by
  unfold decodeDigits
  rw [List.foldl_append]
  rfl

theorem toDigitsCore_spec : ∀ f n : Nat, n < f → ∀ acc : List Char,
    ∃ ds : List Char, Nat.toDigitsCore 10 f n acc = ds ++ acc ∧ ds ≠ [] ∧
      decodeDigits ds = n ∧ ∀ ch ∈ ds, ∃ d, d < 10 ∧ ch = Nat.digitChar d := by
  intro f
  induction f with
  | zero => intro n h; exact absurd h (Nat.not_lt_zero n)
  | succ f ih =>
    intro n h acc
    by_cases h0 : n / 10 = 0
    · refine ⟨[Nat.digitChar (n % 10)], ?_, by simp, ?_, ?_⟩
      · simp [Nat.toDigitsCore, h0]
      · have hside : decodeDigits [Nat.digitChar (n % 10)] =
            charVal (Nat.digitChar (n % 10)) := by
          simp [decodeDigits]
        rw [hside, charVal_digitChar _ (Nat.mod_lt n (by norm_num))]
        omega
      · intro ch hch
        rw [List.mem_singleton] at hch
        exact ⟨n % 10, Nat.mod_lt n (by norm_num), hch⟩
    · have hlt : n / 10 < f := by
        have hd : n / 10 < n := Nat.div_lt_self (by omega) (by norm_num)
        omega
      obtain ⟨ds, hds, hdne, hval, hmem⟩ := ih (n / 10) hlt (Nat.digitChar (n % 10) :: acc)
      refine ⟨ds ++ [Nat.digitChar (n % 10)], ?_, by simp, ?_, ?_⟩
      · have hstep : Nat.toDigitsCore 10 (f + 1) n acc =
            Nat.toDigitsCore 10 f (n / 10) (Nat.digitChar (n % 10) :: acc) := by
          simp [Nat.toDigitsCore, h0]
        rw [hstep, hds]
        simp
      · rw [decodeDigits_append, hval, charVal_digitChar _ (Nat.mod_lt n (by norm_num))]
        omega
      · intro ch hch
        rcases List.mem_append.mp hch with hch | hch
        · exact hmem ch hch
        · rw [List.mem_singleton] at hch
          exact ⟨n % 10, Nat.mod_lt n (by norm_num), hch⟩

theorem natRepr_spec (n : Nat) : ∃ ds : List Char,
    (Nat.repr n).data = ds ∧ decodeDigits ds = n ∧
      ∀ ch ∈ ds, ∃ d, d < 10 ∧ ch = Nat.digitChar d := by
  obtain ⟨ds, hds, _, hval, hmem⟩ := toDigitsCore_spec (n + 1) n (Nat.lt_succ_self n) []
  refine ⟨ds, ?_, hval, hmem⟩
  show (Nat.toDigits 10 n).asString.data = ds
  unfold Nat.toDigits
  rw [hds]
  simp [List.asString]

theorem natRepr_inj {m n : Nat} (h : Nat.repr m = Nat.repr n) : m = n := by
  obtain ⟨dm, hdm, hvm, _⟩ := natRepr_spec m
  obtain ⟨dn, hdn, hvn, _⟩ := natRepr_spec n
  have hdd : dm = dn := by rw [← hdm, ← hdn, h]
  rw [← hvm, ← hvn, hdd]

theorem pipe_notin_natRepr (n : Nat) : '|' ∉ (Nat.repr n).data := by
  obtain ⟨ds, hds, _, hmem⟩ := natRepr_spec n
  rw [hds]
  intro hin
  obtain ⟨d, hd10, hchar⟩ := hmem '|' hin
  exact digitChar_ne_pipe d hd10 hchar.symm

theorem pipe_split : ∀ l1 l2 r1 r2 : List Char, '|' ∉ l1 → '|' ∉ l2 →
    l1 ++ '|' :: r1 = l2 ++ '|' :: r2 → l1 = l2 ∧ r1 = r2 := by
  intro l1
  induction l1 with
  | nil =>
    intro l2 r1 r2 _ h2 heq
    cases l2 with
    | nil => exact ⟨rfl, by simpa using heq⟩
    | cons b bs =>
      exfalso
      injection heq with hb _
      exact h2 (by rw [← hb]; exact List.mem_cons_self _ _)
  | cons a as ih =>
    intro l2 r1 r2 h1 h2 heq
    cases l2 with
    | nil =>
      exfalso
      injection heq with ha _
      exact h1 (by rw [ha]; exact List.mem_cons_self _ _)
    | cons b bs =>
      injection heq with hab hrest
      have h1b : '|' ∉ as := fun hx => h1 (List.mem_cons_of_mem _ hx)
      have h2b : '|' ∉ bs := fun hx => h2 (List.mem_cons_of_mem _ hx)
      obtain ⟨hl, hr⟩ := ih bs r1 r2 h1b h2b hrest
      exact ⟨by rw [hab, hl], hr⟩

theorem cacheString_data (q c d a s r : String) (k : Nat) :
    (cacheString q c d a s r k).data =
      q.data ++ '|' :: (c.data ++ '|' :: (d.data ++ '|' :: (a.data ++ '|' ::
        (s.data ++ '|' :: (r.data ++ '|' :: (Nat.repr k).data))))) := by
  have hp : ("|" : String).data = ['|'] := rfl
  simp [cacheString, hp, List.append_assoc]

/-- C2 counterexample: the separator `|` can occur in a legitimate component
(the free-text query, here "a|b"), and then two distinct component tuples
concatenate to the same cache string — hence to the same key under the hash
(taken here as a stand-in function). -/
theorem cache_key_collision_counterexample :
    cacheString "a|b" "c" "d" "e" "f" "g" 5 = cacheString "a" "b|c" "d" "e" "f" "g" 5 ∧
    getCacheKey id "a|b" "c" "d" "e" "f" "g" 5 = getCacheKey id "a" "b|c" "d" "e" "f" "g" 5 ∧
    ("a|b", "c") ≠ ("a", "b|c") := by
  exact ⟨rfl, rfl, by decide⟩

/-- C2 (amended): the cache key is a deterministic function of the component
tuple — identical components always give the identical key.  Distinct tuples
give distinct concatenated cache strings (hence distinct keys whenever the
md5 step does not itself collide) provided no string component contains the
separator `|`; without that proviso the concatenation step can collide
(`cache_key_collision_counterexample`). -/
theorem cache_key_determinism_and_injectivity :
    (∀ (md5hex : String → String) (q1 c1 d1 a1 s1 r1 : String) (k1 : Nat)
      (q2 c2 d2 a2 s2 r2 : String) (k2 : Nat),
      q1 = q2 → c1 = c2 → d1 = d2 → a1 = a2 → s1 = s2 → r1 = r2 → k1 = k2 →
      getCacheKey md5hex q1 c1 d1 a1 s1 r1 k1 = getCacheKey md5hex q2 c2 d2 a2 s2 r2 k2) ∧
    (∀ (q1 c1 d1 a1 s1 r1 : String) (k1 : Nat)
      (q2 c2 d2 a2 s2 r2 : String) (k2 : Nat),
      pipeFree q1 → pipeFree c1 → pipeFree d1 → pipeFree a1 → pipeFree s1 →
      pipeFree r1 → pipeFree q2 → pipeFree c2 → pipeFree d2 → pipeFree a2 →
      pipeFree s2 → pipeFree r2 →
      cacheString q1 c1 d1 a1 s1 r1 k1 = cacheString q2 c2 d2 a2 s2 r2 k2 →
      q1 = q2 ∧ c1 = c2 ∧ d1 = d2 ∧ a1 = a2 ∧ s1 = s2 ∧ r1 = r2 ∧ k1 = k2) := by
  constructor
  · intro md5hex q1 c1 d1 a1 s1 r1 k1 q2 c2 d2 a2 s2 r2 k2 hq hc hd ha hs hr hk
    rw [hq, hc, hd, ha, hs, hr, hk]
  · intro q1 c1 d1 a1 s1 r1 k1 q2 c2 d2 a2 s2 r2 k2
    intro pq1 pc1 pd1 pa1 ps1 pr1 pq2 pc2 pd2 pa2 ps2 pr2 h
    have hd0 := congrArg String.data h
    rw [cacheString_data, cacheString_data] at hd0
    obtain ⟨e1, hd1⟩ := pipe_split _ _ _ _ pq1 pq2 hd0
    obtain ⟨e2, hd2⟩ := pipe_split _ _ _ _ pc1 pc2 hd1
    obtain ⟨e3, hd3⟩ := pipe_split _ _ _ _ pd1 pd2 hd2
    obtain ⟨e4, hd4⟩ := pipe_split _ _ _ _ pa1 pa2 hd3
    obtain ⟨e5, hd5⟩ := pipe_split _ _ _ _ ps1 ps2 hd4
    obtain ⟨e6, hd6⟩ := pipe_split _ _ _ _ pr1 pr2 hd5
    exact ⟨String.ext e1, String.ext e2, String.ext e3, String.ext e4,
      String.ext e5, String.ext e6, natRepr_inj (String.ext hd6)⟩

/-- Witness for C2 (amended) at a concrete pipe-free tuple (both parts of the
theorem applied, every hypothesis discharged by evaluation). -/
theorem cache_key_determinism_and_injectivity_witness :
    getCacheKey id "alpha" "A" "B" "C" "D" "E" 3 =
      getCacheKey id "alpha" "A" "B" "C" "D" "E" 3 ∧
    (("alpha" : String) = "alpha" ∧ ("A" : String) = "A" ∧ ("B" : String) = "B" ∧
      ("C" : String) = "C" ∧ ("D" : String) = "D" ∧ ("E" : String) = "E" ∧
      (3 : Nat) = 3) := by
  constructor
  · exact cache_key_determinism_and_injectivity.1 id "alpha" "A" "B" "C" "D" "E" 3
      "alpha" "A" "B" "C" "D" "E" 3 rfl rfl rfl rfl rfl rfl rfl
  · exact cache_key_determinism_and_injectivity.2 "alpha" "A" "B" "C" "D" "E" 3
      "alpha" "A" "B" "C" "D" "E" 3 (by decide) (by decide) (by decide) (by decide)
      (by decide) (by decide) (by decide) (by decide) (by decide) (by decide)
      (by decide) (by decide) rfl
